import Mathlib

/-!
Shallow embedding of app.py (handy-mpv): the clock-offset synchronization
core (`TimeSyncer`, `TimeSyncInfo`), the persistence layer, and the player
event handlers, together with proofs about them.

Modelling conventions:
* Python int is `ℤ`; Python float is `ℚ` (all float values arising in
  this program are exact sums/quotients of integers well inside the range
  where IEEE doubles are exact for the realistic magnitudes involved).
* Python `int(x)` applied to a float truncates toward zero; this is
  `pyTrunc` below, via `Int.tdiv` on the numerator/denominator of the
  rational.
* The environment of the sampling loop (successive `time_ms()` readings and
  `client.servertime()` responses) is a stream `env : ℕ → Sample`, the i-th
  round trip of the session.
* An uncaught Python exception is `Except.error`; device commands issued by
  a handler are collected in a list.
-/

/-- Python `int(x)` on a float/rational: truncation toward zero.
For a reduced rational (positive denominator) this is `Int.tdiv` of the
numerator by the denominator. -/
def pyTrunc (q : ℚ) : ℤ :=
  Int.tdiv q.num q.den

/-- Constant `HOUR_NS = 3600_000_000_000` from app.py. -/
def HOUR_NS : ℤ := 3600000000000

/-- One round trip of the sampling loop, as seen by `update_server_time`:
`send_time` is the `time_ms()` reading before the request, `server_time` the
device `servertime()` response, `recv_time` the `time_ms()` reading after. -/
structure Sample where
  send_time : ℤ
  server_time : ℤ
  recv_time : ℤ
deriving DecidableEq, Repr

/-- Quantity `rtd = time_now - send_time` in `update_server_time`. -/
def Sample.rtd (s : Sample) : ℤ :=
  s.recv_time - s.send_time

/-- Quantity `estimated_server_time_now = int(server_time + rtd / 2)` in
`update_server_time` (Python float division, then `int` truncates). -/
def Sample.estimated_server_time_now (s : Sample) : ℤ :=
  pyTrunc ((s.server_time : ℚ) + (s.rtd : ℚ) / 2)

/-- The raw per-sample offset `estimated_server_time_now - time_now` of one
round trip (what the first iteration stores into `initial_offset`). -/
def Sample.raw_offset (s : Sample) : ℤ :=
  s.estimated_server_time_now - s.recv_time

/-- The state of class `TimeSyncer` in app.py. -/
structure TimeSyncer where
  aggregate_offset : ℤ
  sync_count : ℕ
  average_offset : ℚ
  initial_offset : ℤ
deriving DecidableEq, Repr

/-- Constructor `TimeSyncer.__init__`: all fields zero. -/
def TimeSyncer.init : TimeSyncer :=
  { aggregate_offset := 0, sync_count := 0, average_offset := 0, initial_offset := 0 }

/-- The body of one invocation of `TimeSyncer.update_server_time` up to (and
including) the `sync_count` increment, given the observations of this round
trip: if `sync_count == 0` set `initial_offset`, otherwise accumulate the
residual offset and recompute `average_offset = aggregate_offset / sync_count`
(the pre-increment `sync_count`, i.e. the number of samples taken after the
first). -/
def updateStep (ts : TimeSyncer) (s : Sample) : TimeSyncer :=
  if ts.sync_count = 0 then
    { ts with
        initial_offset := s.estimated_server_time_now - s.recv_time,
        sync_count := ts.sync_count + 1 }
  else
    { ts with
        aggregate_offset :=
          ts.aggregate_offset + (s.estimated_server_time_now - s.recv_time - ts.initial_offset),
        average_offset :=
          ((ts.aggregate_offset +
             (s.estimated_server_time_now - s.recv_time - ts.initial_offset) : ℤ) : ℚ) /
            (ts.sync_count : ℚ),
        sync_count := ts.sync_count + 1 }

/-- Method `TimeSyncer.update_server_time(client)`: the self-recursive
sampling loop. The index `i` selects the round trip the environment serves;
the second component of the result counts the `client.servertime()` network
calls performed (one per invocation). The recursion continues while the
incremented `sync_count` is below 15. -/
def update_server_time (env : ℕ → Sample) (i : ℕ) (ts : TimeSyncer) : TimeSyncer × ℕ :=
  if (updateStep ts (env i)).sync_count < 15 then
    ((update_server_time env (i + 1) (updateStep ts (env i))).1,
     (update_server_time env (i + 1) (updateStep ts (env i))).2 + 1)
  else
    (updateStep ts (env i), 1)
termination_by 15 - ts.sync_count
decreasing_by
  by_cases hc : ts.sync_count = 0
  · simp [updateStep, hc] at *
  · simp [updateStep, hc] at *
    omega

/-- The trace of the sampling loop: `foldSteps env i k ts` performs `k`
iterations of the loop body starting at round trip `i`. -/
def foldSteps (env : ℕ → Sample) (i : ℕ) : ℕ → TimeSyncer → TimeSyncer
  | 0, ts => ts
  | k + 1, ts => foldSteps env (i + 1) k (updateStep ts (env i))

/-- Method `TimeSyncer.get_server_time`:
`int(time_ms() + average_offset + initial_offset)`, with the current
`time_ms()` reading passed explicitly. -/
def TimeSyncer.get_server_time (ts : TimeSyncer) (time_ms_now : ℤ) : ℤ :=
  pyTrunc ((time_ms_now : ℚ) + ts.average_offset + (ts.initial_offset : ℚ))

/-- Dataclass `TimeSyncInfo` of app.py (defaults `0, 0, 0`). -/
structure TimeSyncInfo where
  last_saved : ℤ := 0
  average_offset : ℚ := 0
  initial_offset : ℤ := 0
deriving DecidableEq, Repr

/-- Method `TimeSyncInfo.newer_than(time_ns)`: `last_saved > time_ns`. -/
def TimeSyncInfo.newer_than (tsi : TimeSyncInfo) (time_ns : ℤ) : Prop :=
  tsi.last_saved > time_ns

instance (tsi : TimeSyncInfo) (time_ns : ℤ) : Decidable (tsi.newer_than time_ns) :=
  inferInstanceAs (Decidable (_ > _))

/-- The freshness test exactly as `TimeSyncer.update_with_file` performs it:
`tsi.newer_than(time.time_ns() - HOUR_NS)`. -/
def is_fresh (tsi : TimeSyncInfo) (now_ns : ℤ) : Prop :=
  tsi.newer_than (now_ns - HOUR_NS)

instance (tsi : TimeSyncInfo) (now_ns : ℤ) : Decidable (is_fresh tsi now_ns) :=
  inferInstanceAs (Decidable (TimeSyncInfo.newer_than _ _))

/-- Method `TimeSyncer.load(tsi)`: adopt the offsets of the record
(`aggregate_offset` and `sync_count` are left untouched). -/
def TimeSyncer.load (ts : TimeSyncer) (tsi : TimeSyncInfo) : TimeSyncer :=
  { ts with average_offset := tsi.average_offset, initial_offset := tsi.initial_offset }

/-- The record built by `TimeSyncer.save_to` before writing:
`TimeSyncInfo(last_saved=time.time_ns(), average_offset, initial_offset)`,
with the `time.time_ns()` reading passed explicitly. -/
def TimeSyncer.save_record (ts : TimeSyncer) (now_ns : ℤ) : TimeSyncInfo :=
  { last_saved := now_ns,
    average_offset := ts.average_offset,
    initial_offset := ts.initial_offset }

/-- A JSON value, as far as the offset file of this program needs: `json.dump`
writes Python ints and floats as JSON numbers and `json.load` recovers them
exactly; both are modelled by exact numerals. -/
inductive JsonVal where
  | num (q : ℚ)
  | str (s : String)
deriving DecidableEq, Repr

/-- Method `TimeSyncInfo.write_to`: the JSON object `json.dump` serializes
(key/value pairs, in the order written). -/
def TimeSyncInfo.write_to (tsi : TimeSyncInfo) : List (String × JsonVal) :=
  [("last_saved", JsonVal.num (tsi.last_saved : ℚ)),
   ("time_sync_average_offset", JsonVal.num tsi.average_offset),
   ("time_sync_initial_offset", JsonVal.num (tsi.initial_offset : ℚ))]

/-- Errors a Python exception can signal in the modelled fragment. -/
inductive PyErr where
  | jsonDecodeError
  | keyError
  | assertionError
deriving DecidableEq, Repr

/-- Subscript `obj[key]` on a parsed JSON object: raises a key error when the
key is absent. -/
def jsonGet (obj : List (String × JsonVal)) (key : String) : Except PyErr JsonVal :=
  match obj.lookup key with
  | some v => Except.ok v
  | none => Except.error PyErr.keyError

/-- Reading a number field back. The `last_saved`/`initial_offset` values land
in int-typed fields and `average_offset` in a float-typed field, but Python
performs no conversion, so all three are the exact number stored. The
int-typed fields of files this program writes are always integral, recovered
as `ℤ` via `pyTrunc` (exact on integral values). -/
def jsonGetInt (obj : List (String × JsonVal)) (key : String) : Except PyErr ℤ :=
  match jsonGet obj key with
  | Except.ok (JsonVal.num q) => Except.ok (pyTrunc q)
  | Except.ok _ => Except.error PyErr.jsonDecodeError
  | Except.error e => Except.error e

/-- Reading the float-typed field back (exact). -/
def jsonGetNum (obj : List (String × JsonVal)) (key : String) : Except PyErr ℚ :=
  match jsonGet obj key with
  | Except.ok (JsonVal.num q) => Except.ok q
  | Except.ok _ => Except.error PyErr.jsonDecodeError
  | Except.error e => Except.error e

/-- Method `TimeSyncInfo.from_file`, given the parsed JSON object of the file
contents: builds the record from the three fixed keys. -/
def TimeSyncInfo.from_obj (obj : List (String × JsonVal)) : Except PyErr TimeSyncInfo :=
  match jsonGetInt obj ("last_saved"), jsonGetNum obj ("time_sync_average_offset"),
        jsonGetInt obj ("time_sync_initial_offset") with
  | Except.ok ls, Except.ok ao, Except.ok io2 =>
      Except.ok { last_saved := ls, average_offset := ao, initial_offset := io2 }
  | Except.error e, _, _ => Except.error e
  | _, Except.error e, _ => Except.error e
  | _, _, Except.error e => Except.error e

/-- The state of the offset file on disk as `update_with_file` can encounter
it: absent, present but not valid JSON, or present with a parsed object. -/
inductive FileState where
  | missing
  | malformed
  | valid (obj : List (String × JsonVal))
deriving DecidableEq, Repr

/-- Method `TimeSyncInfo.from_file(path)`: `json.load` raises a decode error
on a malformed file (the file is only opened when it exists). -/
def TimeSyncInfo.from_file : FileState → Except PyErr TimeSyncInfo
  | FileState.missing => Except.error PyErr.keyError
  | FileState.malformed => Except.error PyErr.jsonDecodeError
  | FileState.valid obj => TimeSyncInfo.from_obj obj

/-- The tail of `TimeSyncer.update_with_file` once the record `tsi` is bound:
the freshness gate `tsi.newer_than(time.time_ns() - HOUR_NS)`, then either
`load` (no network calls, no write) or `update_server_time` + `save_to`.
Result: the new syncer state, the number of `servertime` network calls made,
and the file write performed (`none` when no write happens). -/
def update_with_record (tsi : TimeSyncInfo) (now_ns save_ns : ℤ) (env : ℕ → Sample)
    (ts : TimeSyncer) : TimeSyncer × ℕ × Option TimeSyncInfo :=
  if tsi.newer_than (now_ns - HOUR_NS) then
    (ts.load tsi, 0, none)
  else
    let r := update_server_time env 0 ts
    (r.1, r.2, some (r.1.save_record save_ns))

/-- Method `TimeSyncer.update_with_file(sync_file, client)`: bind `tsi` from
the file (the default record when the file is absent), then run the freshness
gate. `Except.error` models an exception propagating out uncaught (in app.py
nothing catches it, so the process dies). The reading `now_ns` is the
`time.time_ns()` at the freshness check; `save_ns` the one taken inside
`save_to`. -/
def update_with_file (fs : FileState) (now_ns save_ns : ℤ) (env : ℕ → Sample)
    (ts : TimeSyncer) : Except PyErr (TimeSyncer × ℕ × Option TimeSyncInfo) :=
  match (match fs with
         | FileState.missing => Except.ok ({} : TimeSyncInfo)
         | fs2 => TimeSyncInfo.from_file fs2) with
  | Except.error e => Except.error e
  | Except.ok tsi => Except.ok (update_with_record tsi now_ns save_ns env ts)

/-- The payload `HandyPlayer.sync_play` builds for `client.play`. -/
structure PlayPayload where
  estimatedServerTime : ℤ
  startTime : ℤ
deriving DecidableEq, Repr

/-- A command sent to the device (`client.stop()` / `client.play(payload)`). -/
inductive DevCmd where
  | stop
  | play (payload : PlayPayload)
deriving DecidableEq, Repr

/-- Method `HandyPlayer.sync_play(time, stopped=...)`: builds the payload from
`syncer.get_server_time()` (with the current `time_ms()` reading passed
explicitly), then issues a stop when `stopped` else a play with the payload. -/
def HandyPlayer.sync_play (syncer : TimeSyncer) (time_ms_now : ℤ) (time : ℤ)
    (stopped : Bool) : DevCmd :=
  let payload : PlayPayload :=
    { estimatedServerTime := syncer.get_server_time time_ms_now, startTime := time }
  if stopped then DevCmd.stop else DevCmd.play payload

/-- Function `get_playback_time_ms(player)`: `None` stays `None`; a float
position in seconds becomes `int(value * 1000)` milliseconds. -/
def get_playback_time_ms (value : Option ℚ) : Option ℤ :=
  match value with
  | none => none
  | some v => some (pyTrunc (v * 1000))

/-- Device commands issued by `HandyPlayer._q_binding` (the q key):
`sync_play(0, stopped=True)` before quitting the player. -/
def q_binding_cmds (syncer : TimeSyncer) (time_ms_now : ℤ) : List DevCmd :=
  [HandyPlayer.sync_play syncer time_ms_now 0 true]

/-- Device commands issued by `callback_shutdown` (the player shutdown
event): `sync_play(0, stopped=True)` before quit and exit. -/
def callback_shutdown_cmds (syncer : TimeSyncer) (time_ms_now : ℤ) : List DevCmd :=
  [HandyPlayer.sync_play syncer time_ms_now 0 true]

/-- Device commands issued by the final try/except guard around
`player.wait_for_playback()` (which itself issues `sync_play(0, stopped=True)`
only in the except branch), as a function of whether the wait raised. -/
def wait_guard_cmds (syncer : TimeSyncer) (time_ms_now : ℤ) (raised : Bool) : List DevCmd :=
  if raised then [HandyPlayer.sync_play syncer time_ms_now 0 true] else []

/-- Handler `video_pause_unpause(property_name, new_value)`, the observer of
the pause property: on pause issue a stop; on unpause read the playback time
and issue a play only when it is present (no assertion — a `None` position is
silently skipped). The argument `playback_time` is the playback-time property
of the player, in seconds, at the moment of the call. -/
def video_pause_unpause (syncer : TimeSyncer) (time_ms_now : ℤ) (new_value : Bool)
    (playback_time : Option ℚ) : List DevCmd :=
  if new_value then
    [HandyPlayer.sync_play syncer time_ms_now 0 true]
  else
    match get_playback_time_ms playback_time with
    | none => []
    | some p => [HandyPlayer.sync_play syncer time_ms_now p false]

/-- Handler `file_restart(event)` (the playback-restart event): reads the
playback time and asserts it is not `None` before `sync_play`. -/
def file_restart (syncer : TimeSyncer) (time_ms_now : ℤ)
    (playback_time : Option ℚ) : Except PyErr (List DevCmd) :=
  match get_playback_time_ms playback_time with
  | none => Except.error PyErr.assertionError
  | some p => Except.ok [HandyPlayer.sync_play syncer time_ms_now p false]

/-- Key binding `HandyPlayer._s_binding` (the s key): same assert-then-play
shape as `file_restart`. -/
def s_binding (syncer : TimeSyncer) (time_ms_now : ℤ)
    (playback_time : Option ℚ) : Except PyErr (List DevCmd) :=
  match get_playback_time_ms playback_time with
  | none => Except.error PyErr.assertionError
  | some p => Except.ok [HandyPlayer.sync_play syncer time_ms_now p false]

/-- The end-to-end scenario of the spec: every round trip reports
`serverTime = 1_000_000` with `rtd = 40` and local receive time `t1 = 500`. -/
def scenarioEnv : ℕ → Sample :=
  fun _ => { send_time := 460, server_time := 1000000, recv_time := 500 }

/-- The syncer state produced by the sampling loop in the end-to-end
scenario, starting from the freshly constructed `TimeSyncer`. -/
def scenario_result : TimeSyncer :=
  (update_server_time scenarioEnv 0 TimeSyncer.init).1

theorem updateStep_sync_count (ts : TimeSyncer) (s : Sample) :
    (updateStep ts s).sync_count = ts.sync_count + 1 := by
  unfold updateStep
  split <;> rfl

theorem foldSteps_sync_count (env : ℕ → Sample) :
    ∀ (k i : ℕ) (ts : TimeSyncer),
      (foldSteps env i k ts).sync_count = ts.sync_count + k := by
  intro k
  induction k with
  | zero => intro i ts; rfl
  | succ k ih =>
      intro i ts
      show (foldSteps env (i + 1) k (updateStep ts (env i))).sync_count = _
      rw [ih, updateStep_sync_count]
      omega

theorem foldSteps_last (env : ℕ → Sample) :
    ∀ (k i : ℕ) (ts : TimeSyncer),
      foldSteps env i (k + 1) ts = updateStep (foldSteps env i k ts) (env (i + k)) := by
  intro k
  induction k with
  | zero => intro i ts; simp [foldSteps]
  | succ k ih =>
      intro i ts
      show foldSteps env (i + 1) (k + 1) (updateStep ts (env i)) = _
      rw [ih]
      have h1 : i + 1 + k = i + (k + 1) := by omega
      rw [h1]
      rfl

/-- The recursive loop equals its trace: starting with `sync_count + n = 15`
(so `n ≥ 1` iterations remain), the loop performs exactly `n` iterations and
`n` network calls. -/
theorem update_server_time_eq_foldSteps (env : ℕ → Sample) :
    ∀ (n i : ℕ) (ts : TimeSyncer), ts.sync_count + n = 15 → 0 < n →
      update_server_time env i ts = (foldSteps env i n ts, n) := by
  intro n
  induction n with
  | zero => intro i ts _ h; omega
  | succ m ih =>
      intro i ts hc _
      rw [update_server_time]
      by_cases hm : m = 0
      · subst hm
        have hge : ¬ (updateStep ts (env i)).sync_count < 15 := by
          rw [updateStep_sync_count]; omega
        rw [if_neg hge]
        simp [foldSteps]
      · have hlt : (updateStep ts (env i)).sync_count < 15 := by
          rw [updateStep_sync_count]; omega
        rw [if_pos hlt]
        have hrec := ih (i + 1) (updateStep ts (env i))
          (by rw [updateStep_sync_count]; omega) (by omega)
        rw [hrec]
        rfl

theorem pyTrunc_intCast (n : ℤ) : pyTrunc (n : ℚ) = n := by
  unfold pyTrunc
  rw [Rat.num_intCast, Rat.den_intCast]
  exact Int.tdiv_one n

theorem pyTrunc_eq_floor_of_nonneg (q : ℚ) (hq : 0 ≤ q) : pyTrunc q = ⌊q⌋ := by
  unfold pyTrunc
  rw [Rat.floor_def]
  exact Int.tdiv_eq_ediv (Rat.num_nonneg.2 hq) (Int.ofNat_nonneg q.den)

theorem updateStep_zero (ts : TimeSyncer) (s : Sample) (h : ts.sync_count = 0) :
    updateStep ts s =
      { ts with initial_offset := s.raw_offset, sync_count := ts.sync_count + 1 } := by
  unfold updateStep
  rw [if_pos h]
  rfl

theorem updateStep_pos (ts : TimeSyncer) (s : Sample) (h : ts.sync_count ≠ 0) :
    updateStep ts s =
      { ts with
          aggregate_offset := ts.aggregate_offset + (s.raw_offset - ts.initial_offset),
          average_offset :=
            ((ts.aggregate_offset + (s.raw_offset - ts.initial_offset) : ℤ) : ℚ) /
              (ts.sync_count : ℚ),
          sync_count := ts.sync_count + 1 } := by
  unfold updateStep
  rw [if_neg h]
  rfl

theorem foldSteps_initial_offset (env : ℕ → Sample) :
    ∀ (k i : ℕ) (ts : TimeSyncer), ts.sync_count ≠ 0 →
      (foldSteps env i k ts).initial_offset = ts.initial_offset := by
  intro k
  induction k with
  | zero => intro i ts _; rfl
  | succ k ih =>
      intro i ts h
      show (foldSteps env (i + 1) k (updateStep ts (env i))).initial_offset = _
      rw [ih (i + 1) _ (by rw [updateStep_sync_count]; omega), updateStep_pos ts (env i) h]

/-- Zero-jitter invariant: when every round trip yields the same raw offset
`c`, the post-anchor state (`initial_offset = c`, zero aggregate and average)
is preserved by any number of further iterations. -/
theorem foldSteps_const_raw_offset (env : ℕ → Sample) (c : ℤ)
    (henv : ∀ j, (env j).raw_offset = c) :
    ∀ (k i : ℕ) (ts : TimeSyncer), ts.sync_count ≠ 0 → ts.initial_offset = c →
      ts.aggregate_offset = 0 → ts.average_offset = 0 →
      (foldSteps env i k ts).sync_count ≠ 0 ∧
        (foldSteps env i k ts).initial_offset = c ∧
        (foldSteps env i k ts).aggregate_offset = 0 ∧
        (foldSteps env i k ts).average_offset = 0 := by
  intro k
  induction k with
  | zero => intro i ts h1 h2 h3 h4; exact ⟨h1, h2, h3, h4⟩
  | succ k ih =>
      intro i ts h1 h2 h3 h4
      have hstep : updateStep ts (env i) =
          { ts with
              aggregate_offset := 0,
              average_offset := 0,
              sync_count := ts.sync_count + 1 } := by
        rw [updateStep_pos ts (env i) h1, henv i, h2, h3]
        simp
      show (foldSteps env (i + 1) k (updateStep ts (env i))).sync_count ≠ 0 ∧
        (foldSteps env (i + 1) k (updateStep ts (env i))).initial_offset = c ∧
        (foldSteps env (i + 1) k (updateStep ts (env i))).aggregate_offset = 0 ∧
        (foldSteps env (i + 1) k (updateStep ts (env i))).average_offset = 0
      rw [hstep]
      exact ih (i + 1) _ (by simp) h2 rfl rfl

/-- After the anchoring first iteration from the freshly constructed syncer,
a constant-raw-offset environment leaves `average_offset` at 0 and
`initial_offset` at the anchor, over the full 15-iteration trace. -/
theorem foldSteps_init_zero_jitter (env : ℕ → Sample) (c : ℤ)
    (henv : ∀ j, (env j).raw_offset = c) :
    (foldSteps env 0 15 TimeSyncer.init).average_offset = 0 ∧
      (foldSteps env 0 15 TimeSyncer.init).initial_offset = c ∧
      (foldSteps env 0 15 TimeSyncer.init).sync_count = 15 := by
  have hfirst : updateStep TimeSyncer.init (env 0) =
      { TimeSyncer.init with initial_offset := c, sync_count := 1 } := by
    rw [updateStep_zero _ _ rfl, henv 0]
    rfl
  have hrest := foldSteps_const_raw_offset env c henv 14 1
    { TimeSyncer.init with initial_offset := c, sync_count := 1 }
    (by simp) rfl rfl rfl
  have hshape : foldSteps env 0 15 TimeSyncer.init =
      foldSteps env 1 14 { TimeSyncer.init with initial_offset := c, sync_count := 1 } := by
    show foldSteps env (0 + 1) 14 (updateStep TimeSyncer.init (env 0)) = _
    rw [hfirst]
  rw [hshape]
  refine ⟨hrest.2.2.2, hrest.2.1, ?_⟩
  rw [foldSteps_sync_count]

theorem get_server_time_of_avg_zero (ts : TimeSyncer) (h : ts.average_offset = 0)
    (t : ℤ) : ts.get_server_time t = t + ts.initial_offset := by
  unfold TimeSyncer.get_server_time
  rw [h]
  have hcast : (t : ℚ) + 0 + (ts.initial_offset : ℚ) = ((t + ts.initial_offset : ℤ) : ℚ) := by
    push_cast
    ring
  rw [hcast, pyTrunc_intCast]

/-- With a fixed round-trip delay `d` and a fixed true offset `o` (and
physically meaningful nonnegative server times), every sample has the same
raw offset, namely the constant `o + ⌊d / 2⌋ - d`. -/
theorem raw_offset_of_fixed (d o : ℤ) (hd : 0 ≤ d) (s : Sample)
    (hrecv : s.recv_time = s.send_time + d) (hserv : s.server_time = s.send_time + o)
    (hpos : 0 ≤ s.server_time) :
    s.raw_offset = o + ⌊(d : ℚ) / 2⌋ - d := by
  have hrtd : s.rtd = d := by
    unfold Sample.rtd
    omega
  have hest : s.estimated_server_time_now = s.server_time + ⌊(d : ℚ) / 2⌋ := by
    unfold Sample.estimated_server_time_now
    rw [hrtd]
    have harg : (0 : ℚ) ≤ (s.server_time : ℚ) + (d : ℚ) / 2 := by
      have h1 : (0 : ℚ) ≤ (s.server_time : ℚ) := by exact_mod_cast hpos
      have h2 : (0 : ℚ) ≤ (d : ℚ) / 2 := by
        have h3 : (0 : ℚ) ≤ (d : ℚ) := by exact_mod_cast hd
        linarith
      linarith
    rw [pyTrunc_eq_floor_of_nonneg _ harg, Int.floor_int_add]
  unfold Sample.raw_offset
  rw [hest, hserv, hrecv]
  ring

theorem scenarioEnv_raw_offset (j : ℕ) : (scenarioEnv j).raw_offset = 999520 := by
  have h := raw_offset_of_fixed 40 999540 (by norm_num) (scenarioEnv j) rfl rfl
    (show (0 : ℤ) ≤ 1000000 by norm_num)
  rw [h]
  norm_num

theorem scenario_run :
    update_server_time scenarioEnv 0 TimeSyncer.init =
      (foldSteps scenarioEnv 0 15 TimeSyncer.init, 15) :=
  update_server_time_eq_foldSteps scenarioEnv 15 0 TimeSyncer.init rfl (by omega)

theorem scenario_result_fields :
    scenario_result.initial_offset = 999520 ∧ scenario_result.average_offset = 0 ∧
      scenario_result.sync_count = 15 := by
  have hz := foldSteps_init_zero_jitter scenarioEnv 999520 scenarioEnv_raw_offset
  unfold scenario_result
  rw [scenario_run]
  exact ⟨hz.2.1, hz.1, hz.2.2⟩

theorem scenario_result_eq :
    scenario_result = foldSteps scenarioEnv 0 15 TimeSyncer.init := by
  unfold scenario_result
  rw [scenario_run]

/-- Round-trip helper shared by the persistence claims: reading back the JSON
object `write_to` produced recovers the record exactly. -/
theorem from_obj_write_to (tsi : TimeSyncInfo) :
    TimeSyncInfo.from_obj tsi.write_to = Except.ok tsi := by
  simp [TimeSyncInfo.write_to, TimeSyncInfo.from_obj, jsonGetInt, jsonGetNum, jsonGet,
    List.lookup, pyTrunc_intCast]

theorem update_with_record_fresh (tsi : TimeSyncInfo) (now_ns save_ns : ℤ)
    (env : ℕ → Sample) (ts : TimeSyncer)
    (hfresh : tsi.newer_than (now_ns - HOUR_NS)) :
    update_with_record tsi now_ns save_ns env ts = (ts.load tsi, 0, none) := by
  unfold update_with_record
  rw [if_pos hfresh]

theorem update_with_record_stale (tsi : TimeSyncInfo) (now_ns save_ns : ℤ)
    (env : ℕ → Sample) (ts : TimeSyncer)
    (hstale : ¬ tsi.newer_than (now_ns - HOUR_NS)) :
    update_with_record tsi now_ns save_ns env ts =
      ((update_server_time env 0 ts).1, (update_server_time env 0 ts).2,
        some ((update_server_time env 0 ts).1.save_record save_ns)) := by
  unfold update_with_record
  rw [if_neg hstale]

theorem update_with_file_missing (now_ns save_ns : ℤ) (env : ℕ → Sample)
    (ts : TimeSyncer) :
    update_with_file FileState.missing now_ns save_ns env ts =
      Except.ok (update_with_record {} now_ns save_ns env ts) := rfl

theorem update_with_file_malformed (now_ns save_ns : ℤ) (env : ℕ → Sample)
    (ts : TimeSyncer) :
    update_with_file FileState.malformed now_ns save_ns env ts =
      Except.error PyErr.jsonDecodeError := rfl

theorem update_with_file_valid (obj : List (String × JsonVal)) (tsi : TimeSyncInfo)
    (now_ns save_ns : ℤ) (env : ℕ → Sample) (ts : TimeSyncer)
    (hobj : TimeSyncInfo.from_obj obj = Except.ok tsi) :
    update_with_file (FileState.valid obj) now_ns save_ns env ts =
      Except.ok (update_with_record tsi now_ns save_ns env ts) := by
  show (match TimeSyncInfo.from_obj obj with
        | Except.error e => Except.error e
        | Except.ok tsi => Except.ok (update_with_record tsi now_ns save_ns env ts)) =
      Except.ok (update_with_record tsi now_ns save_ns env ts)
  rw [hobj]

/-- C1: for a run of the sampling loop started with `sync_count = 0`: the
loop result is the 15-iteration trace; the first iteration sets
`initial_offset` to `estimated_server_time - t1` of the first sample; no later
iteration changes it; every subsequent iteration adds
`estimated_server_time - t1 - initial_offset` to `aggregate_offset` and sets
`average_offset` to `aggregate_offset` divided by the number of samples taken
after the first. -/
theorem C1_sampling_loop (env : ℕ → Sample) (ts0 : TimeSyncer)
    (hs : ts0.sync_count = 0) :
    (update_server_time env 0 ts0).1 = foldSteps env 0 15 ts0 ∧
      (foldSteps env 0 1 ts0).initial_offset = (env 0).raw_offset ∧
      (∀ k, 1 ≤ k → (foldSteps env 0 k ts0).initial_offset = (env 0).raw_offset) ∧
      (∀ k, 1 ≤ k →
        (foldSteps env 0 (k + 1) ts0).aggregate_offset =
            (foldSteps env 0 k ts0).aggregate_offset +
              ((env k).raw_offset - (foldSteps env 0 k ts0).initial_offset) ∧
          (foldSteps env 0 (k + 1) ts0).average_offset =
            ((foldSteps env 0 (k + 1) ts0).aggregate_offset : ℚ) / (k : ℚ)) := by
  refine ⟨?_, ?_, ?_, ?_⟩
  · rw [update_server_time_eq_foldSteps env 15 0 ts0 (by omega) (by omega)]
  · show (updateStep ts0 (env 0)).initial_offset = (env 0).raw_offset
    rw [updateStep_zero ts0 (env 0) hs]
  · intro k hk
    obtain ⟨m, rfl⟩ : ∃ m, k = m + 1 := ⟨k - 1, by omega⟩
    show (foldSteps env (0 + 1) m (updateStep ts0 (env 0))).initial_offset = _
    rw [foldSteps_initial_offset env m (0 + 1) _ (by rw [updateStep_sync_count]; omega),
      updateStep_zero ts0 (env 0) hs]
  · intro k hk
    have hk0 : (foldSteps env 0 k ts0).sync_count = k := by
      rw [foldSteps_sync_count, hs]
      omega
    have hne : (foldSteps env 0 k ts0).sync_count ≠ 0 := by omega
    have hlast : foldSteps env 0 (k + 1) ts0 =
        updateStep (foldSteps env 0 k ts0) (env k) := by
      have h := foldSteps_last env k 0 ts0
      rwa [Nat.zero_add] at h
    constructor
    · rw [hlast, updateStep_pos _ _ hne]
    · rw [hlast, updateStep_pos _ _ hne, hk0]

theorem C1_sampling_loop_witness :
    (update_server_time scenarioEnv 0 TimeSyncer.init).1 =
        foldSteps scenarioEnv 0 15 TimeSyncer.init ∧
      (foldSteps scenarioEnv 0 1 TimeSyncer.init).initial_offset =
        (scenarioEnv 0).raw_offset ∧
      (foldSteps scenarioEnv 0 8 TimeSyncer.init).initial_offset =
        (scenarioEnv 0).raw_offset ∧
      (foldSteps scenarioEnv 0 (3 + 1) TimeSyncer.init).aggregate_offset =
        (foldSteps scenarioEnv 0 3 TimeSyncer.init).aggregate_offset +
          ((scenarioEnv 3).raw_offset -
            (foldSteps scenarioEnv 0 3 TimeSyncer.init).initial_offset) := by
  have h := C1_sampling_loop scenarioEnv TimeSyncer.init rfl
  exact ⟨h.1, h.2.1, h.2.2.1 8 (by omega), (h.2.2.2 3 (by omega)).1⟩

/-- C2: with a fixed round-trip delay `d` and a fixed true offset `o` across
all samples (zero jitter; server clock readings nonnegative), the completed
sampling loop leaves `average_offset = 0`, and `get_server_time` equals
`local_time + initial_offset` exactly. -/
theorem C2_zero_jitter (env : ℕ → Sample) (d o : ℤ) (hd : 0 ≤ d)
    (hrecv : ∀ i, (env i).recv_time = (env i).send_time + d)
    (hserv : ∀ i, (env i).server_time = (env i).send_time + o)
    (hpos : ∀ i, 0 ≤ (env i).server_time) :
    ((update_server_time env 0 TimeSyncer.init).1).average_offset = 0 ∧
      ∀ t : ℤ, ((update_server_time env 0 TimeSyncer.init).1).get_server_time t =
        t + ((update_server_time env 0 TimeSyncer.init).1).initial_offset := by
  have hrun : update_server_time env 0 TimeSyncer.init =
      (foldSteps env 0 15 TimeSyncer.init, 15) :=
    update_server_time_eq_foldSteps env 15 0 TimeSyncer.init rfl (by omega)
  have henv : ∀ j, (env j).raw_offset = o + ⌊(d : ℚ) / 2⌋ - d := fun j =>
    raw_offset_of_fixed d o hd (env j) (hrecv j) (hserv j) (hpos j)
  have hz := foldSteps_init_zero_jitter env _ henv
  refine ⟨?_, ?_⟩
  · rw [hrun]
    exact hz.1
  · intro t
    rw [hrun]
    exact get_server_time_of_avg_zero _ hz.1 t

theorem C2_zero_jitter_witness :
    ((update_server_time scenarioEnv 0 TimeSyncer.init).1).average_offset = 0 ∧
      ((update_server_time scenarioEnv 0 TimeSyncer.init).1).get_server_time 500 =
        500 + ((update_server_time scenarioEnv 0 TimeSyncer.init).1).initial_offset := by
  have h := C2_zero_jitter scenarioEnv 40 999540 (by norm_num) (fun i => rfl)
    (fun i => rfl) (fun i => show (0 : ℤ) ≤ 1000000 by norm_num)
  exact ⟨h.1, h.2 500⟩

/-- C3 counterexample: in the end-to-end scenario (no prior offset file,
`serverTime = 1_000_000`, `rtd = 40`, `t1 = 500`), the code computes
`initial_offset = 1_000_020 - 500 = 999_520`, not the claimed `1_000_520`
(whose arithmetic is off by 1000), so the claimed conjunction is false. -/
theorem C3_counterexample :
    ¬ (scenario_result.initial_offset = 1000520 ∧
        scenario_result.average_offset = 0 ∧
        scenario_result.get_server_time 500 = 1001020) := by
  intro h
  have h1 := h.1
  rw [scenario_result_fields.1] at h1
  exact absurd h1 (by norm_num)

/-- C3 amended: same scenario, with the arithmetic corrected:
`initial_offset = 1_000_020 - 500 = 999_520`, after 15 identical samples
`average_offset = 0`, and `get_server_time` at local time 500 equals
`500 + 0 + 999_520 = 1_000_020`; the run performs 15 network calls and
persists the resulting record. -/
theorem C3_end_to_end :
    update_with_file FileState.missing (2 * HOUR_NS) (2 * HOUR_NS) scenarioEnv
        TimeSyncer.init =
      Except.ok (scenario_result, 15, some (scenario_result.save_record (2 * HOUR_NS))) ∧
      scenario_result.initial_offset = 999520 ∧
      scenario_result.average_offset = 0 ∧
      scenario_result.get_server_time 500 = 1000020 := by
  refine ⟨?_, scenario_result_fields.1, scenario_result_fields.2.1, ?_⟩
  · have hstale0 : ¬ ({} : TimeSyncInfo).newer_than (2 * HOUR_NS - HOUR_NS) := by decide
    rw [scenario_result_eq, update_with_file_missing,
      update_with_record_stale _ _ _ _ _ hstale0, scenario_run]
  · rw [get_server_time_of_avg_zero _ scenario_result_fields.2.1 500,
      scenario_result_fields.1]
    norm_num

/-- C4: for every record and every `now_ns`, the freshness test used by
`update_with_file` is true iff `record.last_saved > now_ns - HOUR_NS`, with
the max age fixed at one hour (3,600,000,000,000 ns), and a record whose age
is exactly one hour is not fresh. -/
theorem C4_freshness_boundary (r : TimeSyncInfo) (now_ns : ℤ) :
    (is_fresh r now_ns ↔ r.last_saved > now_ns - HOUR_NS) ∧
      HOUR_NS = 3600000000000 ∧
      (now_ns - r.last_saved = HOUR_NS → ¬ is_fresh r now_ns) := by
  refine ⟨Iff.rfl, rfl, ?_⟩
  intro hb
  unfold is_fresh TimeSyncInfo.newer_than
  omega

theorem C4_freshness_boundary_witness :
    ¬ is_fresh { last_saved := 0 } HOUR_NS :=
  (C4_freshness_boundary { last_saved := 0 } HOUR_NS).2.2 (by simp)

/-- C5: with a persisted record fresher than one hour, the startup sync adopts
the `average_offset` and `initial_offset` of the record directly, with zero
network calls and zero file writes; with a stale record — or an absent one,
once the clock is at least an hour past the epoch — it runs the full
15-sample protocol and persists the result with the new `last_saved`. -/
theorem C5_freshness_gate (obj : List (String × JsonVal)) (tsi : TimeSyncInfo)
    (now_ns save_ns : ℤ) (env : ℕ → Sample) (ts : TimeSyncer)
    (hobj : TimeSyncInfo.from_obj obj = Except.ok tsi) (hs : ts.sync_count = 0) :
    (is_fresh tsi now_ns →
      update_with_file (FileState.valid obj) now_ns save_ns env ts =
        Except.ok (ts.load tsi, 0, none)) ∧
    (¬ is_fresh tsi now_ns →
      update_with_file (FileState.valid obj) now_ns save_ns env ts =
        Except.ok (foldSteps env 0 15 ts, 15,
          some ((foldSteps env 0 15 ts).save_record save_ns))) ∧
    (HOUR_NS ≤ now_ns →
      update_with_file FileState.missing now_ns save_ns env ts =
        Except.ok (foldSteps env 0 15 ts, 15,
          some ((foldSteps env 0 15 ts).save_record save_ns))) := by
  have hrun : update_server_time env 0 ts = (foldSteps env 0 15 ts, 15) :=
    update_server_time_eq_foldSteps env 15 0 ts (by omega) (by omega)
  refine ⟨?_, ?_, ?_⟩
  · intro hfresh
    rw [update_with_file_valid obj tsi now_ns save_ns env ts hobj,
      update_with_record_fresh tsi now_ns save_ns env ts hfresh]
  · intro hstale
    rw [update_with_file_valid obj tsi now_ns save_ns env ts hobj,
      update_with_record_stale tsi now_ns save_ns env ts hstale, hrun]
  · intro hclock
    have hstale0 : ¬ ({} : TimeSyncInfo).newer_than (now_ns - HOUR_NS) := by
      show ¬ ((0 : ℤ) > now_ns - HOUR_NS)
      omega
    rw [update_with_file_missing, update_with_record_stale _ now_ns save_ns env ts hstale0,
      hrun]

theorem C5_freshness_gate_witness :
    update_with_file (FileState.valid (TimeSyncInfo.write_to
        { last_saved := 5 * HOUR_NS, average_offset := 3, initial_offset := 7 }))
        (5 * HOUR_NS) (6 * HOUR_NS) scenarioEnv TimeSyncer.init =
      Except.ok (TimeSyncer.init.load
        { last_saved := 5 * HOUR_NS, average_offset := 3, initial_offset := 7 }, 0, none) ∧
    update_with_file FileState.missing (5 * HOUR_NS) (6 * HOUR_NS) scenarioEnv
        TimeSyncer.init =
      Except.ok (foldSteps scenarioEnv 0 15 TimeSyncer.init, 15,
        some ((foldSteps scenarioEnv 0 15 TimeSyncer.init).save_record (6 * HOUR_NS))) := by
  have h := C5_freshness_gate
    (TimeSyncInfo.write_to { last_saved := 5 * HOUR_NS, average_offset := 3, initial_offset := 7 })
    { last_saved := 5 * HOUR_NS, average_offset := 3, initial_offset := 7 }
    (5 * HOUR_NS) (6 * HOUR_NS) scenarioEnv TimeSyncer.init (from_obj_write_to _) rfl
  exact ⟨h.1 (by decide), h.2.2 (by decide)⟩

/-- C6: saving a record and loading it back returns a record equal to the
saved one in all three fields (exact round trip through the serialized
object). -/
theorem C6_save_load_round_trip (tsi : TimeSyncInfo) :
    TimeSyncInfo.from_obj tsi.write_to = Except.ok tsi :=
  from_obj_write_to tsi

/-- C7 counterexample: a malformed offset file does not fall back to the full
sampling protocol — `json.load` raises a parse error that nothing in the
program catches, so the load crashes the startup (`Except.error` models the
uncaught exception). -/
theorem C7_counterexample :
    update_with_file FileState.malformed (2 * HOUR_NS) (2 * HOUR_NS) scenarioEnv
        TimeSyncer.init = Except.error PyErr.jsonDecodeError := rfl

/-- C7 amended: a missing offset file never raises — it is treated as no prior
sync and (with the clock at least an hour past the epoch) falls back to the
full sampling protocol followed by a save; a malformed file, by contrast,
raises an uncaught parse error and is fatal rather than falling back. -/
theorem C7_load_error_paths (now_ns save_ns : ℤ) (env : ℕ → Sample)
    (ts : TimeSyncer) (hs : ts.sync_count = 0) (hclock : HOUR_NS ≤ now_ns) :
    update_with_file FileState.missing now_ns save_ns env ts =
      Except.ok (foldSteps env 0 15 ts, 15,
        some ((foldSteps env 0 15 ts).save_record save_ns)) ∧
    update_with_file FileState.malformed now_ns save_ns env ts =
      Except.error PyErr.jsonDecodeError := by
  have hrun : update_server_time env 0 ts = (foldSteps env 0 15 ts, 15) :=
    update_server_time_eq_foldSteps env 15 0 ts (by omega) (by omega)
  have hstale0 : ¬ ({} : TimeSyncInfo).newer_than (now_ns - HOUR_NS) := by
    show ¬ ((0 : ℤ) > now_ns - HOUR_NS)
    omega
  refine ⟨?_, update_with_file_malformed now_ns save_ns env ts⟩
  rw [update_with_file_missing, update_with_record_stale _ now_ns save_ns env ts hstale0,
    hrun]

theorem C7_load_error_paths_witness :
    update_with_file FileState.missing (2 * HOUR_NS) (3 * HOUR_NS) scenarioEnv
        TimeSyncer.init =
      Except.ok (foldSteps scenarioEnv 0 15 TimeSyncer.init, 15,
        some ((foldSteps scenarioEnv 0 15 TimeSyncer.init).save_record (3 * HOUR_NS))) ∧
    update_with_file FileState.malformed (2 * HOUR_NS) (3 * HOUR_NS) scenarioEnv
        TimeSyncer.init = Except.error PyErr.jsonDecodeError :=
  C7_load_error_paths (2 * HOUR_NS) (3 * HOUR_NS) scenarioEnv TimeSyncer.init rfl
    (by decide)

/-- C8 counterexample: on normal (non-exceptional) termination of the
`wait_for_playback` loop, the final guard issues no stop command at all, so
the claim that every exit path issues a stop command is false on the code. -/
theorem C8_counterexample :
    ¬ DevCmd.stop ∈ wait_guard_cmds TimeSyncer.init 0 false := by
  simp [wait_guard_cmds]

/-- C8 amended: the quit key binding, the shutdown event handler, and the
exceptional branch of the playback wait guard each issue exactly one stop
command before exit; the normal-termination branch of the wait guard issues
no device command. -/
theorem C8_exit_paths (syncer : TimeSyncer) (time_ms_now : ℤ) :
    q_binding_cmds syncer time_ms_now = [DevCmd.stop] ∧
      callback_shutdown_cmds syncer time_ms_now = [DevCmd.stop] ∧
      wait_guard_cmds syncer time_ms_now true = [DevCmd.stop] ∧
      wait_guard_cmds syncer time_ms_now false = [] :=
  ⟨rfl, rfl, rfl, rfl⟩

/-- C9: started with `sync_count = 0`, the self-recursive sampling loop
terminates after exactly 15 round-trip samples (its trace is `foldSteps` over
15 iterations, its network-call count is 15) and returns with
`sync_count = 15`. -/
theorem C9_terminates_at_15 (env : ℕ → Sample) (i : ℕ) (ts : TimeSyncer)
    (hs : ts.sync_count = 0) :
    update_server_time env i ts = (foldSteps env i 15 ts, 15) ∧
      (update_server_time env i ts).1.sync_count = 15 := by
  have h := update_server_time_eq_foldSteps env 15 i ts (by omega) (by omega)
  refine ⟨h, ?_⟩
  rw [h]
  show (foldSteps env i 15 ts).sync_count = 15
  rw [foldSteps_sync_count, hs]

theorem C9_terminates_at_15_witness :
    update_server_time scenarioEnv 0 TimeSyncer.init =
        (foldSteps scenarioEnv 0 15 TimeSyncer.init, 15) ∧
      (update_server_time scenarioEnv 0 TimeSyncer.init).1.sync_count = 15 :=
  C9_terminates_at_15 scenarioEnv 0 TimeSyncer.init rfl

/-- C10: on an unpause event with no playback position available the handler
issues no device command and raises nothing; with a position available it
issues exactly one play command carrying that position; by contrast, the
seek/restart handler and the s key binding assert the position is present
and fail on `None`. -/
theorem C10_unpause_none_safe (syncer : TimeSyncer) (time_ms_now : ℤ) (v : ℚ) :
    video_pause_unpause syncer time_ms_now false none = [] ∧
      video_pause_unpause syncer time_ms_now false (some v) =
        [DevCmd.play { estimatedServerTime := syncer.get_server_time time_ms_now,
                       startTime := pyTrunc (v * 1000) }] ∧
      file_restart syncer time_ms_now none = Except.error PyErr.assertionError ∧
      s_binding syncer time_ms_now none = Except.error PyErr.assertionError :=
  ⟨rfl, rfl, rfl, rfl⟩
